import Mathlib

/-!
Shallow embedding of `conversation.go` from the `intercom-go` client library:
the conversation data model, the list-parameter builders, and the reply-payload
builder of `ConversationService`, together with theorems about the request
payloads each public operation hands to its `ConversationRepository`
collaborator.

Go conventions mapped to Lean: Go zero values become structure-field defaults
(`""`, `[]`, `none`); the `*bool` query fields (set through the `Bool` helper)
become `Option Bool` with `none` for unset; the `(T, error)` return shape
becomes `Except ICError T`; struct embedding of `PageParams` becomes
`extends`.
-/

set_option autoImplicit false

/-- Modelled from the spec: an `Admin` message person; only the single admin
identifier is relevant to address resolution (spec section 4.1: Admin variant
resolves to `Type "admin"` and the admin's ID). The full Admin entity lives
outside this file's source. -/
structure Admin where
  ID : String := ""
  deriving DecidableEq, Repr

/-- Modelled from the spec: a `User` message person carrying the three
alternative identifiers (internal ID, external user ID, email), any of which
may be empty (spec sections 3 and 4.1). The full User entity lives outside
this file's source. -/
structure User where
  ID : String := ""
  UserID : String := ""
  Email : String := ""
  deriving DecidableEq, Repr

/-- Modelled from the spec: a normalized `MessageAddress` — a discriminant
`Type` (here `Type_`, since `Type` is a Lean keyword) plus the admin ID or
the user identifier triple (spec section 3). -/
structure MessageAddress where
  Type_ : String := ""
  ID : String := ""
  UserID : String := ""
  Email : String := ""
  deriving DecidableEq, Repr

/-- Modelled from the spec: the polymorphic "message person", one of two
variants — Admin or User (spec sections 4.1 and 9). -/
inductive MessagePerson where
  | admin (a : Admin)
  | user (u : User)
  deriving DecidableEq, Repr

/-- Modelled from the spec: Admin variant address resolution —
`{Type: "admin", ID: admin.ID}` (spec section 4.1). -/
def Admin.MessageAddress (a : Admin) : MessageAddress :=
  { Type_ := "admin", ID := a.ID }

/-- Modelled from the spec: User variant address resolution —
`{Type: "user", ID, UserID, Email}` copied from the user, no validation
(spec section 4.1). -/
def User.MessageAddress (u : User) : MessageAddress :=
  { Type_ := "user", ID := u.ID, UserID := u.UserID, Email := u.Email }

/-- Modelled from the spec: resolution of a polymorphic message person,
dispatching to the variant's own resolution (spec section 4.1). -/
def MessagePerson.MessageAddress : MessagePerson → MessageAddress
  | .admin a => a.MessageAddress
  | .user u => u.MessageAddress

/-- Modelled from the spec: the closed reply-kind enumeration — comment, note,
assignment, open, close — each a named constant with a fixed wire string
(spec sections 4.4 and glossary; the source file references
`CONVERSATION_ASSIGN`, `CONVERSATION_OPEN` and `CONVERSATION_CLOSE`). -/
inductive ReplyType where
  | CONVERSATION_COMMENT
  | CONVERSATION_NOTE
  | CONVERSATION_ASSIGN
  | CONVERSATION_OPEN
  | CONVERSATION_CLOSE
  deriving DecidableEq, Repr

/-- Modelled from the spec: the textual wire representation of a reply kind,
sent verbatim to the remote service (spec section 4.4; the "comment" value
appears in the spec's end-to-end example). -/
def ReplyType.String : ReplyType → String
  | .CONVERSATION_COMMENT => "comment"
  | .CONVERSATION_NOTE => "note"
  | .CONVERSATION_ASSIGN => "assignment"
  | .CONVERSATION_OPEN => "open"
  | .CONVERSATION_CLOSE => "close"

/-- Modelled from the spec: the outbound `Reply` wire payload — discriminant
type, reply-kind string, body, attachment URL list, one identity slot
(admin ID or the user triple) and an optional assignee ID (spec section 3).
Field defaults are Go zero values. -/
structure Reply where
  Type_ : String := ""
  ReplyType : String := ""
  Body : String := ""
  AttachmentURLs : List String := []
  AdminID : String := ""
  IntercomID : String := ""
  UserID : String := ""
  Email : String := ""
  AssigneeID : String := ""
  deriving DecidableEq, Repr

/-- Modelled from the spec: pagination cursor/size fields, consumed opaquely
and forwarded unchanged (spec sections 1 and 6). -/
structure PageParams where
  Page : Int := 0
  PerPage : Int := 0
  TotalPages : Int := 0
  deriving DecidableEq, Repr

/-- Modelled from the spec: an opaque error value produced by the repository
collaborator (network failure, non-2xx response, decode failure); this layer
never inspects it (spec section 7). -/
structure ICError where
  Message : String := ""
  deriving DecidableEq, Repr

structure Attachment where
  Name : String := ""
  URL : String := ""
  deriving DecidableEq, Repr

structure Customer where
  Type_ : String := ""
  ID : String := ""
  deriving DecidableEq, Repr

structure Teammate where
  Type_ : String := ""
  ID : String := ""
  deriving DecidableEq, Repr

/-- A ConversationRating is the customer satisfaction rating result. -/
structure ConversationRating where
  Rating : Int := 0
  Remark : String := ""
  CreatedAt : Int := 0
  Customer : Customer := {}
  Teammate : Teammate := {}
  deriving DecidableEq, Repr

/-- A ConversationMessage is the message that started the conversation. -/
structure ConversationMessage where
  Subject : String := ""
  Body : String := ""
  Author : MessageAddress := {}
  URL : String := ""
  Attachments : List Attachment := []
  deriving DecidableEq, Repr

/-- A ConversationPart is a Reply, Note, or Assignment to a Conversation. -/
structure ConversationPart where
  ID : String := ""
  PartType : String := ""
  Body : String := ""
  CreatedAt : Int := 0
  UpdatedAt : Int := 0
  NotifiedAt : Int := 0
  AssignedTo : Admin := {}
  Author : MessageAddress := {}
  Attachments : List Attachment := []
  deriving DecidableEq, Repr

/-- A ConversationPartList lists the subsequent Conversation Parts. -/
structure ConversationPartList where
  Parts : List ConversationPart := []
  deriving DecidableEq, Repr

/-- Modelled from the spec: the tag list attached to a conversation; its
internal shape is defined outside this file's source and never inspected
here. -/
structure TagList where
  deriving DecidableEq, Repr

/-- A Conversation represents a conversation between users and admins. -/
structure Conversation where
  ID : String := ""
  CreatedAt : Int := 0
  UpdatedAt : Int := 0
  User : User := {}
  Assignee : Admin := {}
  Open : Bool := false
  Read : Bool := false
  ConversationMessage : ConversationMessage := {}
  ConversationParts : ConversationPartList := {}
  TagList : Option TagList := none
  ConversationRating : ConversationRating := {}
  deriving DecidableEq, Repr

/-- ConversationList is a list of Conversations. -/
structure ConversationList where
  Pages : PageParams := {}
  Conversations : List Conversation := []
  deriving DecidableEq, Repr

/-- The state of Conversations to query. -/
inductive ConversationListState where
  | SHOW_ALL
  | SHOW_OPEN
  | SHOW_CLOSED
  | SHOW_UNREAD
  deriving DecidableEq, Repr

/-- The flat query-parameter record for list calls; every field is
omit-when-empty on the wire, so Go zero values model "unset". -/
structure conversationListParams extends PageParams where
  Type_ : String := ""
  AdminID : String := ""
  IntercomUserID : String := ""
  UserID : String := ""
  Email : String := ""
  Open : Option Bool := none
  Unread : Option Bool := none
  DisplayAs : String := ""
  Order : String := ""
  Sort_ : String := ""
  State : String := ""
  deriving DecidableEq, Repr

/-- Modelled from the spec: the external repository collaborator with its four
operations (spec section 6); each returns a typed result or an error. -/
structure ConversationRepository where
  list : conversationListParams → Except ICError ConversationList
  find : String → Except ICError Conversation
  read : String → Except ICError Conversation
  reply : String → Reply → Except ICError Conversation

/-- ConversationService handles interactions with the API through a
ConversationRepository. -/
structure ConversationService where
  Repository : ConversationRepository

/-- The list-parameter record built by `ListByAdmin` (source lines 101-115):
base fields from the inputs, then the two sequential state checks. -/
def listByAdminParams (adminID orderBy sort : String) (state : ConversationListState)
    (pageParams : PageParams) : conversationListParams :=
  let params : conversationListParams :=
    { toPageParams := pageParams
      Type_ := "admin"
      AdminID := adminID
      Order := orderBy
      Sort_ := sort }
  let params :=
    if state = ConversationListState.SHOW_OPEN then
      { params with Open := some true, State := "open" }
    else params
  let params :=
    if state = ConversationListState.SHOW_CLOSED then
      { params with Open := some false, State := "closed" }
    else params
  params

/-- The list-parameter record built by `ListByUser` (source lines 121-130). -/
def listByUserParams (user : User) (state : ConversationListState)
    (pageParams : PageParams) : conversationListParams :=
  let params : conversationListParams :=
    { toPageParams := pageParams
      Type_ := "user"
      IntercomUserID := user.ID
      UserID := user.UserID
      Email := user.Email }
  if state = ConversationListState.SHOW_UNREAD then
    { params with Unread := some true }
  else params

/-- The reply payload built by the internal `reply` helper (source lines
154-167): `Type`, `ReplyType`, `Body` and `AttachmentURLs` set directly, then
the branch on `addr.Type == "admin"` selecting the identity slot. -/
def buildReply (addr : MessageAddress) (replyType : ReplyType) (body : String)
    (attachmentURLs : List String) : Reply :=
  let reply : Reply :=
    { Type_ := addr.Type_
      ReplyType := replyType.String
      Body := body
      AttachmentURLs := attachmentURLs }
  if addr.Type_ = "admin" then
    { reply with AdminID := addr.ID }
  else
    { reply with IntercomID := addr.ID, UserID := addr.UserID, Email := addr.Email }

/-- The assign payload built by `Assign` (source lines 173-180): type
hardcoded to "admin", assigner's address ID in `AdminID`, assignee's address
ID in `AssigneeID`. -/
def assignPayload (assigner assignee : Admin) : Reply :=
  { Type_ := "admin"
    ReplyType := ReplyType.CONVERSATION_ASSIGN.String
    AdminID := assigner.MessageAddress.ID
    AssigneeID := assignee.MessageAddress.ID }

/-- List all Conversations (source line 95-97). -/
def ConversationService.ListAll (c : ConversationService) (pageParams : PageParams) :
    Except ICError ConversationList :=
  c.Repository.list { toPageParams := pageParams }

/-- List Conversations by Admin (source lines 100-117). -/
def ConversationService.ListByAdmin (c : ConversationService) (adminID orderBy sort : String)
    (state : ConversationListState) (pageParams : PageParams) :
    Except ICError ConversationList :=
  c.Repository.list (listByAdminParams adminID orderBy sort state pageParams)

/-- List Conversations by User (source lines 120-132). -/
def ConversationService.ListByUser (c : ConversationService) (user : User)
    (state : ConversationListState) (pageParams : PageParams) :
    Except ICError ConversationList :=
  c.Repository.list (listByUserParams user state pageParams)

/-- Find Conversation by conversation id (source lines 135-137). -/
def ConversationService.Find (c : ConversationService) (id : String) :
    Except ICError Conversation :=
  c.Repository.find id

/-- Mark Conversation as read (source lines 140-142). -/
def ConversationService.MarkRead (c : ConversationService) (id : String) :
    Except ICError Conversation :=
  c.Repository.read id

/-- The internal reply helper (source lines 153-169): resolve the author's
address, build the payload, delegate to the repository. -/
def ConversationService.reply (c : ConversationService) (id : String)
    (author : MessagePerson) (replyType : ReplyType) (body : String)
    (attachmentURLs : List String) : Except ICError Conversation :=
  c.Repository.reply id (buildReply author.MessageAddress replyType body attachmentURLs)

/-- Reply to a Conversation, no attachments (source lines 144-146). -/
def ConversationService.Reply (c : ConversationService) (id : String)
    (author : MessagePerson) (replyType : ReplyType) (body : String) :
    Except ICError Conversation :=
  c.reply id author replyType body []

/-- Reply to a Conversation by id with attachments (source lines 149-151). -/
def ConversationService.ReplyWithAttachmentURLs (c : ConversationService) (id : String)
    (author : MessagePerson) (replyType : ReplyType) (body : String)
    (attachmentURLs : List String) : Except ICError Conversation :=
  c.reply id author replyType body attachmentURLs

/-- Assign a Conversation to an Admin (source lines 172-182). -/
def ConversationService.Assign (c : ConversationService) (id : String)
    (assigner assignee : Admin) : Except ICError Conversation :=
  c.Repository.reply id (assignPayload assigner assignee)

/-- Open a Conversation, without a body (source lines 185-187). -/
def ConversationService.Open (c : ConversationService) (id : String) (opener : Admin) :
    Except ICError Conversation :=
  c.reply id (.admin opener) ReplyType.CONVERSATION_OPEN "" []

/-- Close a Conversation, without a body (source lines 190-192). -/
def ConversationService.Close (c : ConversationService) (id : String) (closer : Admin) :
    Except ICError Conversation :=
  c.reply id (.admin closer) ReplyType.CONVERSATION_CLOSE "" []

/-- A concrete stub conversation used by concrete test repositories below. -/
def echoConv (tag : String) : Conversation :=
  { ID := tag }

/-- A concrete repository that encodes each received payload into the result,
so theorems at concrete inputs can observe exactly what was sent. -/
def testRepo : ConversationRepository :=
  { list := fun p => Except.ok { Pages := p.toPageParams, Conversations := [] }
    find := fun id => Except.ok (echoConv id)
    read := fun id => Except.ok (echoConv ("read:" ++ id))
    reply := fun id r =>
      Except.ok (echoConv (id ++ "|" ++ r.Type_ ++ "|" ++ r.ReplyType ++ "|" ++
        r.AdminID ++ "|" ++ r.AssigneeID ++ "|" ++ r.IntercomID ++ "|" ++
        r.UserID ++ "|" ++ r.Email ++ "|" ++ r.Body)) }

/-- A concrete service over `testRepo`. -/
def testService : ConversationService :=
  { Repository := testRepo }

/-- C1: through `Reply` and `ReplyWithAttachmentURLs` the built payload is
sent to the repository; when the author's resolved address has Type "admin"
the payload carries Type "admin", the address's ID in AdminID and empty user
identifiers; when it has Type "user" the payload carries Type "user", empty
AdminID, and the user identifiers copied verbatim (so a user field is empty
on the payload exactly when it is empty on the address). -/
theorem reply_builds_identity_fields_by_author_type (c : ConversationService) (id : String)
    (author : MessagePerson) (rt : ReplyType) (body : String) (urls : List String) :
    (c.Reply id author rt body =
        c.Repository.reply id (buildReply author.MessageAddress rt body []) ∧
      c.ReplyWithAttachmentURLs id author rt body urls =
        c.Repository.reply id (buildReply author.MessageAddress rt body urls)) ∧
    (author.MessageAddress.Type_ = "admin" →
      (buildReply author.MessageAddress rt body urls).Type_ = "admin" ∧
      (buildReply author.MessageAddress rt body urls).AdminID = author.MessageAddress.ID ∧
      (buildReply author.MessageAddress rt body urls).IntercomID = "" ∧
      (buildReply author.MessageAddress rt body urls).UserID = "" ∧
      (buildReply author.MessageAddress rt body urls).Email = "") ∧
    (author.MessageAddress.Type_ = "user" →
      (buildReply author.MessageAddress rt body urls).Type_ = "user" ∧
      (buildReply author.MessageAddress rt body urls).AdminID = "" ∧
      (buildReply author.MessageAddress rt body urls).IntercomID = author.MessageAddress.ID ∧
      (buildReply author.MessageAddress rt body urls).UserID = author.MessageAddress.UserID ∧
      (buildReply author.MessageAddress rt body urls).Email = author.MessageAddress.Email ∧
      (((buildReply author.MessageAddress rt body urls).IntercomID = "") ↔
        (author.MessageAddress.ID = "")) ∧
      (((buildReply author.MessageAddress rt body urls).UserID = "") ↔
        (author.MessageAddress.UserID = "")) ∧
      (((buildReply author.MessageAddress rt body urls).Email = "") ↔
        (author.MessageAddress.Email = ""))) := by
  refine ⟨⟨rfl, rfl⟩, ?_, ?_⟩
  · intro h
    simp [buildReply, h]
  · intro h
    have h' : author.MessageAddress.Type_ ≠ "admin" := by rw [h]; decide
    simp [buildReply, h, h']

/-- C1 witness: the theorem applied to one concrete admin author and one
concrete user author. -/
theorem reply_builds_identity_fields_by_author_type_witness :
    (buildReply (MessagePerson.admin { ID := "a1" }).MessageAddress
        ReplyType.CONVERSATION_COMMENT "hello" []).AdminID = "a1" ∧
    (buildReply (MessagePerson.user { ID := "u1", UserID := "ext", Email := "u@x" }).MessageAddress
        ReplyType.CONVERSATION_COMMENT "hi" ["a"]).IntercomID = "u1" := by
  constructor
  · exact ((reply_builds_identity_fields_by_author_type testService "c1"
      (MessagePerson.admin { ID := "a1" }) ReplyType.CONVERSATION_COMMENT "hello" []).2.1
      rfl).2.1
  · exact ((reply_builds_identity_fields_by_author_type testService "c1"
      (MessagePerson.user { ID := "u1", UserID := "ext", Email := "u@x" })
      ReplyType.CONVERSATION_COMMENT "hi" ["a"]).2.2 rfl).2.2.1

/-- C2: `ListByAdmin` hands the repository params with Type "admin" and
AdminID, Order, Sort and PageParams copied from the inputs; SHOW_OPEN sets
`Open = some true` and `State = "open"`, SHOW_CLOSED sets `Open = some false`
and `State = "closed"`, SHOW_ALL and SHOW_UNREAD leave both unset. -/
theorem listByAdmin_params_state_filters (c : ConversationService)
    (adminID orderBy sort : String) (state : ConversationListState) (page : PageParams) :
    c.ListByAdmin adminID orderBy sort state page =
      c.Repository.list (listByAdminParams adminID orderBy sort state page) ∧
    (listByAdminParams adminID orderBy sort state page).Type_ = "admin" ∧
    (listByAdminParams adminID orderBy sort state page).AdminID = adminID ∧
    (listByAdminParams adminID orderBy sort state page).Order = orderBy ∧
    (listByAdminParams adminID orderBy sort state page).Sort_ = sort ∧
    (listByAdminParams adminID orderBy sort state page).toPageParams = page ∧
    (listByAdminParams adminID orderBy sort state page).Open =
      (match state with
        | ConversationListState.SHOW_OPEN => some true
        | ConversationListState.SHOW_CLOSED => some false
        | _ => none) ∧
    (listByAdminParams adminID orderBy sort state page).State =
      (match state with
        | ConversationListState.SHOW_OPEN => "open"
        | ConversationListState.SHOW_CLOSED => "closed"
        | _ => "") := by
  cases state <;> exact ⟨rfl, rfl, rfl, rfl, rfl, rfl, rfl, rfl⟩

/-- C3: `ListByUser` hands the repository params with Type "user", the three
identifier fields copied from the user and PageParams from the input; Unread
is `some true` exactly for SHOW_UNREAD and unset for every other state. -/
theorem listByUser_params_unread_filter (c : ConversationService) (user : User)
    (state : ConversationListState) (page : PageParams) :
    c.ListByUser user state page = c.Repository.list (listByUserParams user state page) ∧
    (listByUserParams user state page).Type_ = "user" ∧
    (listByUserParams user state page).IntercomUserID = user.ID ∧
    (listByUserParams user state page).UserID = user.UserID ∧
    (listByUserParams user state page).Email = user.Email ∧
    (listByUserParams user state page).toPageParams = page ∧
    (listByUserParams user state page).Unread =
      (match state with
        | ConversationListState.SHOW_UNREAD => some true
        | _ => none) := by
  cases state <;> exact ⟨rfl, rfl, rfl, rfl, rfl, rfl, rfl⟩

/-- C4: `Open` and `Close` build payloads with an empty Body and an empty
attachment list, carrying the open-kind and close-kind tags respectively. -/
theorem open_close_empty_body_no_attachments (c : ConversationService) (id : String)
    (a : Admin) :
    (c.Open id a = c.Repository.reply id
        (buildReply (MessagePerson.admin a).MessageAddress ReplyType.CONVERSATION_OPEN "" []) ∧
      (buildReply (MessagePerson.admin a).MessageAddress
        ReplyType.CONVERSATION_OPEN "" []).Body = "" ∧
      (buildReply (MessagePerson.admin a).MessageAddress
        ReplyType.CONVERSATION_OPEN "" []).AttachmentURLs = [] ∧
      (buildReply (MessagePerson.admin a).MessageAddress
        ReplyType.CONVERSATION_OPEN "" []).ReplyType = ReplyType.CONVERSATION_OPEN.String) ∧
    (c.Close id a = c.Repository.reply id
        (buildReply (MessagePerson.admin a).MessageAddress ReplyType.CONVERSATION_CLOSE "" []) ∧
      (buildReply (MessagePerson.admin a).MessageAddress
        ReplyType.CONVERSATION_CLOSE "" []).Body = "" ∧
      (buildReply (MessagePerson.admin a).MessageAddress
        ReplyType.CONVERSATION_CLOSE "" []).AttachmentURLs = [] ∧
      (buildReply (MessagePerson.admin a).MessageAddress
        ReplyType.CONVERSATION_CLOSE "" []).ReplyType = ReplyType.CONVERSATION_CLOSE.String) := by
  constructor <;> refine ⟨rfl, ?_, ?_, ?_⟩ <;>
    simp [buildReply, MessagePerson.MessageAddress, Admin.MessageAddress]

/-- C5: `Assign` hands the repository a payload with Type "admin", the assign
reply-kind tag, the assigner's resolved address ID in AdminID and the
assignee's resolved address ID in AssigneeID. -/
theorem assign_payload_fields_and_delegation (c : ConversationService) (id : String)
    (assigner assignee : Admin) :
    c.Assign id assigner assignee = c.Repository.reply id (assignPayload assigner assignee) ∧
    (assignPayload assigner assignee).Type_ = "admin" ∧
    (assignPayload assigner assignee).ReplyType = ReplyType.CONVERSATION_ASSIGN.String ∧
    (assignPayload assigner assignee).AdminID = assigner.MessageAddress.ID ∧
    (assignPayload assigner assignee).AssigneeID = assignee.MessageAddress.ID :=
  ⟨rfl, rfl, rfl, rfl, rfl⟩

/-- C6 counterexample: against a concrete repository that echoes the payload
it receives, `Assign` at a concrete input succeeds and the repository
observes the fully constructed assign payload — no precondition-violation
error exists on this path, contradicting the claim that Assign fails before
constructing or sending a payload. -/
theorem assign_no_precondition_error_counterexample :
    testService.Assign "c1" { ID := "a1" } { ID := "a2" } =
      Except.ok (echoConv "c1|admin|assignment|a1|a2||||") := by
  rfl

/-- C6 amended: `Assign` statically requires both parties to be admins and
performs no runtime precondition check: for every invocation it constructs
the assign payload and delegates to the repository, with no error path of
its own. -/
theorem assign_always_delegates_payload (c : ConversationService) (id : String)
    (assigner assignee : Admin) :
    c.Assign id assigner assignee = c.Repository.reply id (assignPayload assigner assignee) :=
  rfl

/-- C7: every public operation returns exactly the repository collaborator's
result for the single call it makes — the service adds, wraps or replaces
nothing, so any error a caller receives is the repository's error value
unchanged. -/
theorem service_errors_propagate_unchanged (c : ConversationService)
    (page : PageParams) (adminID orderBy sort id : String)
    (state : ConversationListState) (user : User) (author : MessagePerson)
    (rt : ReplyType) (body : String) (urls : List String)
    (assigner assignee opener closer : Admin) :
    c.ListAll page = c.Repository.list { toPageParams := page } ∧
    c.ListByAdmin adminID orderBy sort state page =
      c.Repository.list (listByAdminParams adminID orderBy sort state page) ∧
    c.ListByUser user state page = c.Repository.list (listByUserParams user state page) ∧
    c.Find id = c.Repository.find id ∧
    c.MarkRead id = c.Repository.read id ∧
    c.Reply id author rt body =
      c.Repository.reply id (buildReply author.MessageAddress rt body []) ∧
    c.ReplyWithAttachmentURLs id author rt body urls =
      c.Repository.reply id (buildReply author.MessageAddress rt body urls) ∧
    c.Assign id assigner assignee =
      c.Repository.reply id (assignPayload assigner assignee) ∧
    c.Open id opener = c.Repository.reply id
      (buildReply (MessagePerson.admin opener).MessageAddress ReplyType.CONVERSATION_OPEN "" []) ∧
    c.Close id closer = c.Repository.reply id
      (buildReply (MessagePerson.admin closer).MessageAddress ReplyType.CONVERSATION_CLOSE "" []) :=
  ⟨rfl, rfl, rfl, rfl, rfl, rfl, rfl, rfl, rfl, rfl⟩

/-- C8: the reply-payload builder is a pure function of the (address, kind,
body, attachments) tuple: equal inputs yield a field-for-field identical
payload. -/
theorem buildReply_deterministic (addr1 addr2 : MessageAddress) (rt1 rt2 : ReplyType)
    (b1 b2 : String) (u1 u2 : List String)
    (ha : addr1 = addr2) (hr : rt1 = rt2) (hb : b1 = b2) (hu : u1 = u2) :
    buildReply addr1 rt1 b1 u1 = buildReply addr2 rt2 b2 u2 ∧
    (buildReply addr1 rt1 b1 u1).Type_ = (buildReply addr2 rt2 b2 u2).Type_ ∧
    (buildReply addr1 rt1 b1 u1).ReplyType = (buildReply addr2 rt2 b2 u2).ReplyType ∧
    (buildReply addr1 rt1 b1 u1).Body = (buildReply addr2 rt2 b2 u2).Body ∧
    (buildReply addr1 rt1 b1 u1).AttachmentURLs = (buildReply addr2 rt2 b2 u2).AttachmentURLs ∧
    (buildReply addr1 rt1 b1 u1).AdminID = (buildReply addr2 rt2 b2 u2).AdminID ∧
    (buildReply addr1 rt1 b1 u1).IntercomID = (buildReply addr2 rt2 b2 u2).IntercomID ∧
    (buildReply addr1 rt1 b1 u1).UserID = (buildReply addr2 rt2 b2 u2).UserID ∧
    (buildReply addr1 rt1 b1 u1).Email = (buildReply addr2 rt2 b2 u2).Email ∧
    (buildReply addr1 rt1 b1 u1).AssigneeID = (buildReply addr2 rt2 b2 u2).AssigneeID := by
  subst ha hr hb hu
  exact ⟨rfl, rfl, rfl, rfl, rfl, rfl, rfl, rfl, rfl, rfl⟩

/-- C8 witness: the theorem applied at one concrete input tuple. -/
theorem buildReply_deterministic_witness :
    buildReply { Type_ := "user", ID := "u1" } ReplyType.CONVERSATION_NOTE "b" ["x"] =
      buildReply { Type_ := "user", ID := "u1" } ReplyType.CONVERSATION_NOTE "b" ["x"] :=
  (buildReply_deterministic { Type_ := "user", ID := "u1" } { Type_ := "user", ID := "u1" }
    ReplyType.CONVERSATION_NOTE ReplyType.CONVERSATION_NOTE "b" "b" ["x"] ["x"]
    rfl rfl rfl rfl).1

/-- C9: the assign payload always has empty Body, attachment list and user
identifiers and hardcodes Type "admin"; no payload built by the reply
builder ever populates AssigneeID. -/
theorem assign_payload_frame (assigner assignee : Admin) :
    (assignPayload assigner assignee).Body = "" ∧
    (assignPayload assigner assignee).AttachmentURLs = [] ∧
    (assignPayload assigner assignee).IntercomID = "" ∧
    (assignPayload assigner assignee).UserID = "" ∧
    (assignPayload assigner assignee).Email = "" ∧
    (assignPayload assigner assignee).Type_ = "admin" ∧
    ∀ (addr : MessageAddress) (rt : ReplyType) (body : String) (urls : List String),
      (buildReply addr rt body urls).AssigneeID = "" := by
  refine ⟨rfl, rfl, rfl, rfl, rfl, rfl, ?_⟩
  intro addr rt body urls
  by_cases h : addr.Type_ = "admin" <;> simp [buildReply, h]

/-- C10: the builder's branch tests the exact string "admin": any other
resolved Type string (including the empty string) takes the user branch,
copying the address's identifiers into the user fields, leaving AdminID
empty, and copying the Type string verbatim. -/
theorem reply_non_admin_takes_user_branch (addr : MessageAddress) (rt : ReplyType)
    (body : String) (urls : List String) (h : addr.Type_ ≠ "admin") :
    (buildReply addr rt body urls).Type_ = addr.Type_ ∧
    (buildReply addr rt body urls).AdminID = "" ∧
    (buildReply addr rt body urls).IntercomID = addr.ID ∧
    (buildReply addr rt body urls).UserID = addr.UserID ∧
    (buildReply addr rt body urls).Email = addr.Email := by
  simp [buildReply, h]

/-- C10 witness: the theorem applied at a concrete address whose Type is the
empty string. -/
theorem reply_non_admin_takes_user_branch_witness :
    (buildReply { Type_ := "", ID := "i1", UserID := "x1", Email := "e1" }
        ReplyType.CONVERSATION_COMMENT "b" []).AdminID = "" ∧
    (buildReply { Type_ := "", ID := "i1", UserID := "x1", Email := "e1" }
        ReplyType.CONVERSATION_COMMENT "b" []).IntercomID = "i1" := by
  have h := reply_non_admin_takes_user_branch
    { Type_ := "", ID := "i1", UserID := "x1", Email := "e1" }
    ReplyType.CONVERSATION_COMMENT "b" [] (by decide)
  exact ⟨h.2.1, h.2.2.1⟩
